import Mathlib

/-!
Verification of the AdProcess synchronization core (SyncFiles.py, AdConfig.py).

This file shallowly embeds the two algorithms covered by the spec:
* the atomic directory-swap slideshow synchronization (`SyncDir`), and
* the three-way config/playlist reconciliation (`sync_common`,
  `_persist_last_good_and_apply`, `_write_json_atomic`, with `LoadConfig`
  from AdConfig.py),
and proves or refutes the spec's claims about them.

Modelling conventions:
* File modification times are natural numbers (seconds); `_mtime` returns an
  `Int` so that the code's `-1.0` sentinel for a missing file is exact.
* JSON documents are a `JVal` tree; `json.dump`'s indentation and key sorting
  are formatting only and are abstracted away (the value tree is preserved).
* Python dict/tuple runtime behaviour relevant to the code is modelled
  explicitly: `dict.update` applied to a `(dict, str)` tuple raises, and
  `dict.clear()` on an aliased object empties both references.
-/

namespace AdProcess

/-! ## JSON documents and raw file contents -/

/-- A JSON value, as produced by `json.load`/`json.dump`. -/
inductive JVal where
  | jnull : JVal
  | jnum  : Int → JVal
  | jstr  : String → JVal
  | jarr  : List JVal → JVal
  | jobj  : List (String × JVal) → JVal

/-- Raw content of a file on disk: either a serialized JSON value or bytes
that do not parse as JSON. -/
inductive Raw where
  | jsonVal : JVal → Raw
  | invalid : Raw

/-- `load_json_preserve_order` (AdConfig.py): parse the file and require the
root to be a JSON object, else raise (modelled as `none`). -/
def parseRoot : Raw → Option (List (String × JVal))
  | .jsonVal (.jobj kvs) => some kvs
  | _ => none

/-- A file on disk: its `st_mtime` and its raw content. -/
structure FileData where
  mtime   : Nat
  content : Raw

/-- `_mtime` (SyncFiles.py): `st_mtime` of the file, `-1.0` when the path is
missing (FileNotFoundError) or stat fails. -/
def mtimeOf : Option FileData → Int
  | none => -1
  | some fd => (fd.mtime : Int)

/-- Parse of a possibly-missing file (missing files fail to parse). -/
def parseFile : Option FileData → Option (List (String × JVal))
  | none => none
  | some fd => parseRoot fd.content

/-! ## Per-file staging policy of `SyncDir` (SyncFiles.py lines 148-189)

For each file in the cloud directory, `SyncDir` compares it with the
same-named local file and stages either the cloud copy (counting as a
change) or the local copy (not a change). -/

/-- `st_size` and `st_mtime` of a stat result. -/
structure FStat where
  size  : Nat
  mtime : Int

/-- Which copy of a file the staging loop stages. -/
inductive StageChoice where
  | fromCloud
  | fromLocal
deriving DecidableEq

/-- The per-file decision of `SyncDir`'s staging loop: given the cloud stat
`cst` and the local stat (`none` when the local file is missing, or when its
stat fails, which the code also treats as "take cloud, counts as change"),
return the staged copy and whether `copied_from_cloud` is set. -/
def stageOne (cst : FStat) (lst : Option FStat) : StageChoice × Bool :=
  match lst with
  | none => (.fromCloud, true)
  | some l =>
    -- Equal (size same & mtime within 1s) → prefer LOCAL; NOT a change
    if l.size = cst.size ∧ (l.mtime - cst.mtime ≤ 1 ∧ cst.mtime - l.mtime ≤ 1) then
      (.fromLocal, false)
    -- Local strictly newer → prefer LOCAL; NOT a change
    else if l.mtime > cst.mtime + 1 then
      (.fromLocal, false)
    -- Otherwise Cloud is newer (or size differs) → take CLOUD; IS a change
    else
      (.fromCloud, true)

/-! ## The dark-window swap of `SyncDir` (SyncFiles.py lines 235-262)

Directory contents are finite maps from file name to content, moved
wholesale by `Path.replace` (a single same-filesystem rename syscall).
Right before the dark window the live directory holds the pre-swap set,
the backup slot has been removed (`shutil.rmtree(old_dir)`), and the SD
scratch directory holds the post-swap set. -/

/-- Contents of a directory: file names with their contents. -/
abbrev DirSet := List (String × Nat)

/-- The three directory paths touched by the dark window. `none` means the
path does not exist. -/
structure SwapFS where
  live   : Option DirSet
  backup : Option DirSet
  sdTmp  : Option DirSet
deriving DecidableEq

/-- `dst_dir.replace(old_dir)`: live → backup, atomically. -/
def rename1 (s : SwapFS) : SwapFS :=
  { live := none, backup := s.live, sdTmp := s.sdTmp }

/-- `sd_tmp_dir.replace(dst_dir)`: scratch → live, atomically. -/
def rename2 (s : SwapFS) : SwapFS :=
  { live := s.sdTmp, backup := s.backup, sdTmp := none }

/-- Filesystem state at the start of the dark window. -/
def preSwapState (pre post : DirSet) : SwapFS :=
  { live := some pre, backup := none, sdTmp := some post }

/-- Every state at which an abort can leave the filesystem during the dark
window: before the first rename, between the two renames, after the second. -/
def darkStates (pre post : DirSet) : List SwapFS :=
  [preSwapState pre post,
   rename1 (preSwapState pre post),
   rename2 (rename1 (preSwapState pre post))]

/-! ## Three-way reconciliation: `sync_common` (SyncFiles.py lines 332-405)

The reconciler works on three files — cloud, local and last-good — plus the
in-memory document state (`cfg.CONFIG` / `cfg.PLAY_LIST`).  `LoadConfig`
(AdConfig.py lines 174-207) additionally reads a fallback file named
`<stem>.lastgood.json` next to the path it is given; that file is distinct
from sync_common's `<basename>.lastgood` and nothing in the repository
writes it, but it is kept in the state for fidelity (one slot for the
`<basename>.tmp` copy used on a cloud win, one for the local file).

Successful filesystem operations are modelled directly; failure injection
and exception flow are handled separately by `syncCommonFlow`/`syncDirFlow`
below. -/

/-- The three winners `sync_common` can select. -/
inductive Winner where
  | cloud
  | lastGood
  | loc
deriving DecidableEq

/-- The winner selection of `sync_common` (lines 360-369): strictly greatest
mtime over both others, else no winner. -/
def pickWinner (c g l : Int) : Option Winner :=
  if c > g ∧ c > l then some .cloud
  else if g > c ∧ g > l then some .lastGood
  else if l > c ∧ l > g then some .loc
  else none

/-- A Python object passed to `_persist_last_good_and_apply`: either a dict
(the defaults, in the seeding path) or the `(document, source)` tuple that
`LoadConfig` returns (in the winner paths). -/
inductive PyObj where
  | pdict  : List (String × JVal) → PyObj
  | ptuple : JVal → String → PyObj

/-- `json.dump` of the object (`_write_json_atomic`): a dict serializes to a
JSON object, the `(document, source)` tuple to a two-element JSON ARRAY
(whose root is not an object, so it no longer parses as a document). -/
def serializePy : PyObj → Raw
  | .pdict kvs => .jsonVal (.jobj kvs)
  | .ptuple v s => .jsonVal (.jarr [v, .jstr s])

/-- What CPython's `cur.clear(); cur.update((doc, source))` leaves in `cur`
when `doc` is a dict: `dict.update` on a non-mapping iterates it as a
sequence of key-value pairs (`PyDict_MergeFromSeq2`). Element #0 is `doc`
itself, turned into the list of its keys: with EXACTLY two top-level keys
`[k1, k2]` it is accepted as a pair and `cur[k1] = k2` is merged, after
which element #1 — the source tag, a string of length 7 or 8, never 2 —
raises; with any other key count element #0 raises immediately. Either way
the exception is caught (SyncFiles.py line 326), so memory keeps exactly
what was merged before the raise. -/
def memTupleMerge (kvs : List (String × JVal)) : List (String × JVal) :=
  match kvs with
  | [(k1, _), (k2, _)] => [(k1, .jstr k2)]
  | _ => []

/-- The in-memory update of `_persist_last_good_and_apply` (lines 313-327):
`cur.clear()` runs first, then `cur.update(new)`.
* `new` a dict distinct from `cur`: memory becomes the dict's content.
* `new` the SAME object as `cur` (`aliased`, as in
  `sync_common("config.json", DefaultConfig)` where `DefaultConfig` is
  `cfg.CONFIG` itself): `clear()` empties the shared object, so the
  subsequent `update` reads an empty dict and memory stays empty.
* `new` the `(document, source)` tuple: `dict.update` raises part-way
  through (caught at line 326) leaving the partial merge described by
  `memTupleMerge` — empty unless the document has exactly two top-level
  keys. (`LoadConfig` only ever puts a parsed object in the tuple's first
  slot, so the other `JVal` shapes are unreachable there.) -/
def applyToMem (obj : PyObj) (aliased : Bool) : List (String × JVal) :=
  match obj with
  | .pdict kvs => if aliased then [] else kvs
  | .ptuple v _ =>
    match v with
    | .jobj kvs => memTupleMerge kvs
    | _ => []

/-- `LoadConfig` (AdConfig.py): try the given file, then the adjacent
`<stem>.lastgood.json`, then the in-code defaults; always returns a
`(document, source)` pair, never a parse failure. (The seeding writes of
`LoadConfig` do not fire in sync_common's winner paths: the file handed to
it always exists there.) -/
def loadConfig (file alt : Option FileData) (defaults : List (String × JVal)) :
    JVal × String :=
  match parseFile file with
  | some kvs => (.jobj kvs, "current")
  | none =>
    match parseFile alt with
    | some kvs => (.jobj kvs, "lastgood")
    | none => (.jobj defaults, "defaults")

/-- The reconciler state: the three document files, the two
`*.lastgood.json` fallback files read by `LoadConfig`, and the in-memory
document. -/
structure CState where
  cloud    : Option FileData
  loc      : Option FileData
  lastGood : Option FileData
  lgAltTmp : Option FileData
  lgAltLoc : Option FileData
  mem      : List (String × JVal)

/-- `_persist_last_good_and_apply` (success path): atomically write the
object to the last-good path (its mtime becomes the write time `now`), then
clear-and-update the in-memory document. -/
def persistLastGoodAndApply (s : CState) (obj : PyObj) (aliased : Bool)
    (now : Nat) : CState :=
  { s with lastGood := some ⟨now, serializePy obj⟩, mem := applyToMem obj aliased }

/-- `sync_common(basename, defaults)` with all filesystem writes succeeding.
`aliased` records whether the `defaults` argument is the very dict object
that `_persist_last_good_and_apply` mutates in memory (true for the
`config.json` call in `SyncConfigs`); `now` is the mtime given to the
last-good file when it is written. Returns the new state and the boolean
result. -/
def syncCommon (defaults : List (String × JVal)) (aliased : Bool) (now : Nat)
    (s : CState) : CState × Bool :=
  -- Seed last_good from in-memory defaults if missing (not a "change"):
  -- `_mtime(last_good) < 0` exactly when the file is missing.
  if s.lastGood.isNone then
    (persistLastGoodAndApply s (.pdict defaults) aliased now, false)
  else
    match pickWinner (mtimeOf s.cloud) (mtimeOf s.lastGood) (mtimeOf s.loc) with
    | none => (s, false)
    | some .lastGood => (s, false)
    | some .cloud =>
      -- cloud → tmp copy (same content), LoadConfig(tmp), persist the tuple
      (persistLastGoodAndApply s
        (.ptuple (loadConfig s.cloud s.lgAltTmp defaults).1
                 (loadConfig s.cloud s.lgAltTmp defaults).2) aliased now, true)
    | some .loc =>
      (persistLastGoodAndApply s
        (.ptuple (loadConfig s.loc s.lgAltLoc defaults).1
                 (loadConfig s.loc s.lgAltLoc defaults).2) aliased now, true)

end AdProcess

namespace AdProcess

/-! ## Theorems about the staging policy and the dark window -/

/-- C6 counterexample input: cloud file of size 10, mtime 0; local file of
size 20 (differs), mtime 5 (local newer by more than 1s). -/
def c6CloudStat : FStat := { size := 10, mtime := 0 }

/-- C6 counterexample input: the local stat. -/
def c6LocalStat : FStat := { size := 20, mtime := 5 }

/-- A sample document `{"A": 1}`. -/
def docA : List (String × JVal) := [("A", .jnum 1)]

/-- A sample previous last-good document `{"P": 0}`. -/
def prevDoc : List (String × JVal) := [("P", .jnum 0)]

/-- Sample in-code defaults `{"B": 2}`. -/
def dflts : List (String × JVal) := [("B", .jnum 2)]

/-- Local file `{"A": 1}` at mtime 5 is the strict winner over last-good
(mtime 2) and a missing cloud file; memory holds the previous document. -/
def c2State : CState :=
  { cloud := none, loc := some ⟨5, .jsonVal (.jobj docA)⟩,
    lastGood := some ⟨2, .jsonVal (.jobj prevDoc)⟩,
    lgAltTmp := none, lgAltLoc := none, mem := prevDoc }

/-- None of the three files exists (their mtimes tie at the `-1` sentinel). -/
def c3State : CState :=
  { cloud := none, loc := none, lastGood := none,
    lgAltTmp := none, lgAltLoc := none, mem := prevDoc }

/-- A three-way mtime tie among existing files (all at mtime 3). -/
def c3TieState : CState :=
  { cloud := some ⟨3, .jsonVal (.jobj docA)⟩, loc := some ⟨3, .invalid⟩,
    lastGood := some ⟨3, .jsonVal (.jobj prevDoc)⟩,
    lgAltTmp := none, lgAltLoc := none, mem := prevDoc }

/-- The local file is the strict winner (mtime 5) but its content does not
parse as a JSON object. -/
def c4State : CState :=
  { cloud := none, loc := some ⟨5, .invalid⟩,
    lastGood := some ⟨2, .jsonVal (.jobj prevDoc)⟩,
    lgAltTmp := none, lgAltLoc := none, mem := prevDoc }

/-- As `c4State`, but the adjacent `.lastgood.json` fallback file exists and
parses (content `prevDoc`). -/
def c4AltState : CState :=
  { cloud := none, loc := some ⟨5, .invalid⟩,
    lastGood := some ⟨2, .jsonVal (.jobj prevDoc)⟩,
    lgAltTmp := none, lgAltLoc := some ⟨0, .jsonVal (.jobj prevDoc)⟩,
    mem := prevDoc }

/-- The file `sync_common` hands to `LoadConfig` for each winner: the local
file itself for a local win, the tmp copy of the cloud file (same content)
for a cloud win. -/
def winnerFileFor : Winner → CState → Option FileData
  | .loc, s => s.loc
  | .cloud, s => s.cloud
  | .lastGood, s => s.lastGood

/-- The adjacent `<stem>.lastgood.json` fallback file `LoadConfig` reads for
each winner's path (`<basename>.lastgood.json` beside the `.tmp` copy on a
cloud win, `<stem>.lastgood.json` beside the local file on a local win). -/
def altFileFor : Winner → CState → Option FileData
  | .loc, s => s.lgAltLoc
  | .cloud, s => s.lgAltTmp
  | .lastGood, _ => none

/-- A cloud file carrying a FUTURE mtime (1000), far beyond the
reconciler's write times; last-good at mtime 1, local missing. Nothing
changes the cloud or local file between the two calls. -/
def c7SkewState : CState :=
  { cloud := some ⟨1000, .jsonVal (.jobj docA)⟩, loc := none,
    lastGood := some ⟨1, .jsonVal (.jobj prevDoc)⟩,
    lgAltTmp := none, lgAltLoc := none, mem := prevDoc }

/-- Scenario D: no cloud, local, or last-good file; memory holds `docA`. -/
def c5State : CState :=
  { cloud := none, loc := none, lastGood := none,
    lgAltTmp := none, lgAltLoc := none, mem := docA }

/-- Cloud (mtime 3) beats last-good (mtime 1); local is missing. -/
def c7State : CState :=
  { cloud := some ⟨3, .jsonVal (.jobj docA)⟩, loc := none,
    lastGood := some ⟨1, .jsonVal (.jobj prevDoc)⟩,
    lgAltTmp := none, lgAltLoc := none, mem := prevDoc }

/-! ## `_write_json_atomic` under failure injection (SyncFiles.py 283-301)

The code creates a `NamedTemporaryFile(delete=False)`, dumps/flushes/fsyncs
the JSON into it, binds `tmp = Path(f.name)` ONLY AFTER the fsync, then
renames `tmp` over the destination; the `finally` block runs
`tmp.unlink()` under `contextlib.suppress(Exception)`. -/

/-- Failure injection points for `_write_json_atomic`. -/
structure WFaults where
  /-- `NamedTemporaryFile` construction raises (no file is created). -/
  createRaises : Bool
  /-- `json.dump`, `f.flush()` or `os.fsync` raises (e.g. disk full); the
  temp file already exists on disk but `tmp` is never bound. -/
  dumpRaises : Bool
  /-- `tmp.replace(dst)` raises; `tmp` is bound. -/
  replaceRaises : Bool
deriving DecidableEq

/-- Observable state of one `_write_json_atomic` call: the destination file
content and whether this call's temporary file is on disk. -/
structure WState where
  dest : Option Raw
  tmpOnDisk : Bool

/-- `_write_json_atomic(dst, obj)`. On `createRaises` nothing was created
(the `finally` hits a suppressed NameError). On `dumpRaises` the temp file
REMAINS on disk: `tmp` was never bound, so the cleanup raises NameError,
which `contextlib.suppress` swallows. On `replaceRaises` the bound `tmp` is
unlinked by the `finally`. On success the rename installs the content and
the `finally`'s unlink hits a suppressed FileNotFoundError. -/
def writeJsonAtomic (f : WFaults) (obj : PyObj) (s : WState) : WState × Bool :=
  if f.createRaises then (s, false)
  else if f.dumpRaises then ({ s with tmpOnDisk := true }, false)
  else if f.replaceRaises then ({ s with tmpOnDisk := false }, false)
  else ({ dest := some (serializePy obj), tmpOnDisk := false }, true)

/-! ## Exception flow of the public operations (C9)

`sync_common` wraps its whole body in a catch-all `try/except` (lines
333/402-405). `SyncDir` guards only the dark window (lines 235-249) and the
per-file stat calls; its directory creations and staging copies are
unguarded and an exception there propagates to the caller (`SyncFiles`
calls `SyncDir` outside any try). The flow skeletons below follow the
source's control flow with a Boolean fault flag at each filesystem call
that can raise; `Except.error` models an exception escaping the function.
The player contract (`Play`/`Stop`, spec §6) and the logging helpers are
documented never to raise and are modelled accordingly. -/

/-- Whether an `Except` result is a normal return. -/
def exceptIsOk : Except Unit Bool → Bool
  | .ok _ => true
  | .error _ => false

/-- Preconditions and fault-injection flags for one `SyncDir` run, in the
order the source consults them. -/
structure DirFaults where
  srcExists : Bool
  dstParentExists : Bool
  dstExists : Bool
  dstIsDir : Bool
  oldExists : Bool
  oldIsDir : Bool
  /-- `dst_dir.mkdir()` (line 134) raises — unguarded. -/
  mkdirDstRaises : Bool
  /-- `old_dir.mkdir()` (line 138) raises — unguarded. -/
  mkdirOldRaises : Bool
  /-- `ram_tmp_dir.mkdir(...)` (line 146) raises — unguarded. -/
  mkdirRamRaises : Bool
  /-- a `shutil.copy2` in the staging loop (lines 169-188) raises —
  unguarded (only the `stat` calls are guarded). -/
  copyStageRaises : Bool
  /-- `copied_from_cloud or deleted_exists` (line 206). -/
  changeDetected : Bool
  /-- `sd_tmp_dir.mkdir(...)` (line 213) raises — unguarded. -/
  mkdirSdRaises : Bool
  /-- a `shutil.copy2` RAM→SD (line 217) raises — unguarded. -/
  copySdRaises : Bool
  /-- `dst_dir.replace(old_dir)` (line 243) raises — caught. -/
  rename1Raises : Bool
  /-- `sd_tmp_dir.replace(dst_dir)` (line 244) raises — caught. -/
  rename2Raises : Bool
deriving DecidableEq

/-- Control-flow skeleton of `SyncDir` (lines 119-266): `.ok b` models a
normal `return b`, `.error ()` models an exception escaping the function.
The `rmtree` calls all pass `ignore_errors=True` and cannot raise; the
dark-window `try/except` turns a rename failure into `ok = False`, and the
`finally` block (player restart, cleanup) is non-raising. -/
def syncDirFlow (f : DirFaults) : Except Unit Bool :=
  if !f.srcExists then .ok false
  else if !f.dstParentExists then .ok false
  else if f.dstExists && !f.dstIsDir then .ok false
  else if !f.dstExists && f.mkdirDstRaises then .error ()
  else if !f.oldExists && f.mkdirOldRaises then .error ()
  else if f.oldExists && !f.oldIsDir then .ok false
  else if f.mkdirRamRaises then .error ()
  else if f.copyStageRaises then .error ()
  else if !f.changeDetected then .ok false
  else if f.mkdirSdRaises then .error ()
  else if f.copySdRaises then .error ()
  else if f.rename1Raises || f.rename2Raises then .ok false
  else .ok true

/-- Fault-injection flags for one `sync_common` run. -/
structure CFaults where
  /-- any exception at a point not individually guarded inside the body. -/
  unexpectedRaises : Bool
  /-- `last_good.parent.mkdir(...)` raises (guarded, lines 342-346). -/
  mkdirParentRaises : Bool
  /-- the last-good file is missing, so the seeding branch runs. -/
  seedNeeded : Bool
  /-- `shutil.copy2(cloud, tmp)` raises (guarded, lines 373-378). -/
  copyCloudRaises : Bool
  /-- result of `_persist_last_good_and_apply` (returns a bool, never
  raises: `_write_json_atomic` has its own catch-all and the in-memory
  update is guarded). -/
  persistOk : Bool
  winner : Option Winner
deriving DecidableEq

/-- The body of `sync_common` inside the outer `try`: every known raise
point is individually guarded and yields `return False`; anything else is
the catch-all's job. -/
def syncCommonBody (f : CFaults) : Except Unit Bool :=
  if f.unexpectedRaises then .error ()
  else if f.mkdirParentRaises then .ok false
  else if f.seedNeeded then .ok false
  else
    match f.winner with
    | none => .ok false
    | some .lastGood => .ok false
    | some .cloud => if f.copyCloudRaises then .ok false else .ok f.persistOk
    | some .loc => .ok f.persistOk

/-- `sync_common` with its outer catch-all (lines 402-405): any exception
escaping the body is logged and converted to `return False`. -/
def syncCommonFlow (f : CFaults) : Except Unit Bool :=
  match syncCommonBody f with
  | .error _ => .ok false
  | .ok b => .ok b

/-- The fault environment in which only the dark-window renames can fail:
all preconditions hold, a change was detected, and no unguarded operation
raises. -/
def darkOnly (g : DirFaults) : Prop :=
  g.srcExists = true ∧ g.dstParentExists = true ∧ g.dstExists = true ∧
  g.dstIsDir = true ∧ g.oldExists = true ∧ g.oldIsDir = true ∧
  g.mkdirRamRaises = false ∧ g.copyStageRaises = false ∧
  g.changeDetected = true ∧ g.mkdirSdRaises = false ∧ g.copySdRaises = false

/-! ## The `SyncFiles` promotion loop (SyncFiles.py lines 441-498) -/

/-- One playlist entry as the `SyncFiles` loop sees it:
* `dirEntry swapOk` — the name ends in "/", `SyncDir` returned `swapOk`;
* `vidEntry present updateNeeded copyOk` — a video name: the cloud file
  exists, an update is required (size/mtime comparison), and the
  copy-and-replace succeeded (its exception handler continues the loop);
* `skipEntry` — a non-dict entry, an empty name, or a missing cloud video. -/
inductive MEntry where
  | dirEntry (swapOk : Bool)
  | vidEntry (present updateNeeded copyOk : Bool)
  | skipEntry
deriving DecidableEq

/-- Whether processing the entry promotes it (and makes `SyncFiles`
return): a successful directory swap, or a video whose cloud copy exists,
needs an update, and is replaced successfully. -/
def promotes : MEntry → Bool
  | .dirEntry ok => ok
  | .vidEntry present needed ok => present && needed && ok
  | .skipEntry => false

/-- The `SyncFiles` entry loop: returns how many entries were promoted in
this invocation and the suffix of entries it returned before examining. -/
def syncFilesRun : List MEntry → Nat × List MEntry
  | [] => (0, [])
  | e :: rest => if promotes e then (1, rest) else syncFilesRun rest

/-- When the middle argument is the strict maximum, `pickWinner` selects
last-good. -/
theorem pickWinner_lastGood_of_lt {c g l : Int} (hc : c < g) (hl : l < g) :
    pickWinner c g l = some .lastGood := by
  unfold pickWinner
  rw [if_neg (by omega), if_pos ⟨hc, hl⟩]

/-- `_mtime` of an existing file is its (non-negative) `st_mtime`. -/
theorem mtimeOf_some (fd : FileData) : mtimeOf (some fd) = (fd.mtime : Int) := rfl

/-- `sync_common` with a missing last-good file takes the seeding branch. -/
theorem syncCommon_seed (d : List (String × JVal)) (a : Bool) (t : Nat)
    (s : CState) (h : s.lastGood = none) :
    syncCommon d a t s = (persistLastGoodAndApply s (.pdict d) a t, false) := by
  unfold syncCommon
  rw [h]
  rfl

/-- `sync_common` with no strict winner is a no-op returning false. -/
theorem syncCommon_noWin (d : List (String × JVal)) (a : Bool) (t : Nat)
    (s : CState) (fd : FileData) (h : s.lastGood = some fd)
    (hw : pickWinner (mtimeOf s.cloud) (fd.mtime : Int) (mtimeOf s.loc) = none) :
    syncCommon d a t s = (s, false) := by
  unfold syncCommon
  rw [h, mtimeOf_some, hw]
  rfl

/-- `sync_common` with last-good as strict winner is a no-op returning false. -/
theorem syncCommon_winLastGood (d : List (String × JVal)) (a : Bool) (t : Nat)
    (s : CState) (fd : FileData) (h : s.lastGood = some fd)
    (hw : pickWinner (mtimeOf s.cloud) (fd.mtime : Int) (mtimeOf s.loc)
      = some .lastGood) :
    syncCommon d a t s = (s, false) := by
  unfold syncCommon
  rw [h, mtimeOf_some, hw]
  rfl

/-- `sync_common` with the cloud file as strict winner persists the
`LoadConfig` result for the tmp copy of the cloud file and returns true. -/
theorem syncCommon_winCloud (d : List (String × JVal)) (a : Bool) (t : Nat)
    (s : CState) (fd : FileData) (h : s.lastGood = some fd)
    (hw : pickWinner (mtimeOf s.cloud) (fd.mtime : Int) (mtimeOf s.loc)
      = some .cloud) :
    syncCommon d a t s =
      (persistLastGoodAndApply s
        (.ptuple (loadConfig s.cloud s.lgAltTmp d).1
                 (loadConfig s.cloud s.lgAltTmp d).2) a t, true) := by
  unfold syncCommon
  rw [h, mtimeOf_some, hw]
  rfl

/-- `sync_common` with the local file as strict winner persists the
`LoadConfig` result for the local file and returns true. -/
theorem syncCommon_winLoc (d : List (String × JVal)) (a : Bool) (t : Nat)
    (s : CState) (fd : FileData) (h : s.lastGood = some fd)
    (hw : pickWinner (mtimeOf s.cloud) (fd.mtime : Int) (mtimeOf s.loc)
      = some .loc) :
    syncCommon d a t s =
      (persistLastGoodAndApply s
        (.ptuple (loadConfig s.loc s.lgAltLoc d).1
                 (loadConfig s.loc s.lgAltLoc d).2) a t, true) := by
  unfold syncCommon
  rw [h, mtimeOf_some, hw]
  rfl

/-- The second pass returns false whenever last-good is strictly newest. -/
theorem syncCommon_false_of_lastGood_newest (d : List (String × JVal))
    (a : Bool) (t : Nat) (s : CState) (fd : FileData) (h : s.lastGood = some fd)
    (hc : mtimeOf s.cloud < (fd.mtime : Int))
    (hl : mtimeOf s.loc < (fd.mtime : Int)) :
    (syncCommon d a t s).2 = false := by
  rw [syncCommon_winLastGood d a t s fd h (pickWinner_lastGood_of_lt hc hl)]

end AdProcess

/-- C1, counterexample: abort the swap exactly between the two dark-window
renames, with pre-swap live set {a ↦ 1} and staged post-swap set {b ↦ 2}.
Afterwards the live directory path does not exist — it holds neither the
complete pre-swap set nor the complete post-swap set. -/
theorem C1_counterexample :
    (AdProcess.rename1 (AdProcess.preSwapState [("a", 1)] [("b", 2)])).live ≠
        some [("a", 1)] ∧
    (AdProcess.rename1 (AdProcess.preSwapState [("a", 1)] [("b", 2)])).live ≠
        some [("b", 2)] := by
  decide

/-- C1, amended: at every state an abort can leave during the dark window,
the live directory path holds the complete pre-swap set, or the complete
post-swap set, or is absent; and whenever it is absent, the complete
pre-swap set is intact in the backup slot and the complete post-swap set is
intact in the same-filesystem scratch directory. The live path never holds
a partial mix of the two sets. -/
theorem C1_dark_window_no_partial_mix (pre post : AdProcess.DirSet)
    (s : AdProcess.SwapFS) (hs : s ∈ AdProcess.darkStates pre post) :
    (s.live = some pre ∨ s.live = some post ∨ s.live = none) ∧
    (s.live = none → s.backup = some pre ∧ s.sdTmp = some post) ∧
    (∀ d : AdProcess.DirSet, s.live = some d → d = pre ∨ d = post) := by
  simp only [AdProcess.darkStates, AdProcess.preSwapState, AdProcess.rename1,
    AdProcess.rename2, List.mem_cons, List.mem_singleton, List.not_mem_nil] at hs
  rcases hs with h | h | h | h
  · subst h
    refine ⟨Or.inl rfl, ?_, ?_⟩
    · intro h
      exact absurd h (by simp)
    · intro d hd
      exact Or.inl (by simpa using hd.symm)
  · subst h
    refine ⟨Or.inr (Or.inr rfl), fun _ => ⟨rfl, rfl⟩, ?_⟩
    intro d hd
    exact absurd hd (by simp)
  · subst h
    refine ⟨Or.inr (Or.inl rfl), ?_, ?_⟩
    · intro h
      exact absurd h (by simp)
    · intro d hd
      exact Or.inr (by simpa using hd.symm)
  · exact h.elim

/-- Witness for `C1_dark_window_no_partial_mix`: the state between the two
renames with pre-swap set {a ↦ 1} and post-swap set {b ↦ 2} is a dark-window
abort state, and there the backup slot holds the complete pre-swap set and
the scratch directory the complete post-swap set. -/
theorem C1_dark_window_no_partial_mix_witness :
    (AdProcess.rename1 (AdProcess.preSwapState [("a", 1)] [("b", 2)])
        ∈ AdProcess.darkStates [("a", 1)] [("b", 2)]) ∧
    ((AdProcess.rename1 (AdProcess.preSwapState [("a", 1)] [("b", 2)])).backup
        = some [("a", 1)] ∧
     (AdProcess.rename1 (AdProcess.preSwapState [("a", 1)] [("b", 2)])).sdTmp
        = some [("b", 2)]) :=
  ⟨by decide,
   (C1_dark_window_no_partial_mix [("a", 1)] [("b", 2)]
      (AdProcess.rename1 (AdProcess.preSwapState [("a", 1)] [("b", 2)]))
      (by decide)).2.1 rfl⟩

/-- C6, counterexample: the claim says a size difference alone forces the
remote copy to be staged and the sync marked changed; but when the local
file is also newer than the remote by more than 1 second, `SyncDir` stages
the LOCAL copy and does not mark a change (size 10 vs 20, mtimes 0 vs 5). -/
theorem C6_counterexample :
    (AdProcess.c6LocalStat.size ≠ AdProcess.c6CloudStat.size) ∧
    AdProcess.stageOne AdProcess.c6CloudStat (some AdProcess.c6LocalStat)
      = (AdProcess.StageChoice.fromLocal, false) := by
  constructor
  · decide
  · rfl

/-- C6, amended: for a file present in both the remote and the local
directory, if the local size differs from the remote or the remote mtime is
newer by more than 1 second, and additionally the local mtime is not newer
than the remote's by more than 1 second, then the remote copy is staged and
the sync is marked changed. -/
theorem C6_stage_cloud_when_stale (cst l : AdProcess.FStat)
    (hdiff : l.size ≠ cst.size ∨ cst.mtime > l.mtime + 1)
    (hnotnewer : ¬ (l.mtime > cst.mtime + 1)) :
    AdProcess.stageOne cst (some l) = (AdProcess.StageChoice.fromCloud, true) := by
  have h1 : ¬ (l.size = cst.size ∧ (l.mtime - cst.mtime ≤ 1 ∧ cst.mtime - l.mtime ≤ 1)) := by
    rcases hdiff with hsz | hmt
    · rintro ⟨h, -⟩
      exact hsz h
    · rintro ⟨-, -, h⟩
      omega
  simp only [AdProcess.stageOne, if_neg h1, if_neg hnotnewer]

/-- C2, code evaluated at the failing input: with the local file `{"A": 1}`
(mtime 5) the strict winner over last-good (mtime 2) and a missing cloud
file, `sync_common` returns true, but it persists the `(document, source)`
TUPLE returned by `LoadConfig` — serialized as the two-element JSON array
`[{"A": 1}, "current"]`, whose root is no longer an object and so no longer
parses as a document — and the in-memory state ends EMPTY (the dict is
cleared and then `dict.update` on the tuple raises, which is caught),
instead of persisting exactly the document `{"A": 1}` and applying it. -/
theorem C2_persists_tuple_and_wipes_memory :
    (AdProcess.syncCommon AdProcess.dflts false 7 AdProcess.c2State).2 = true ∧
    (AdProcess.syncCommon AdProcess.dflts false 7 AdProcess.c2State).1.lastGood =
      some ⟨7, .jsonVal (.jarr [.jobj AdProcess.docA, .jstr "current"])⟩ ∧
    AdProcess.parseFile
      (AdProcess.syncCommon AdProcess.dflts false 7 AdProcess.c2State).1.lastGood
      = none ∧
    (AdProcess.syncCommon AdProcess.dflts false 7 AdProcess.c2State).1.mem = [] :=
  ⟨rfl, rfl, rfl, rfl⟩

/-- C3, counterexample: when none of the three files exists, their mtimes
tie at the `-1` sentinel, so no source is strictly greater than both others;
yet `sync_common` does not leave the last-good file untouched — it seeds it
(the pre-call last-good does not exist, the post-call one does). -/
theorem C3_counterexample :
    AdProcess.pickWinner (AdProcess.mtimeOf AdProcess.c3State.cloud)
      (AdProcess.mtimeOf AdProcess.c3State.lastGood)
      (AdProcess.mtimeOf AdProcess.c3State.loc) = none ∧
    AdProcess.c3State.lastGood = none ∧
    (AdProcess.syncCommon AdProcess.dflts false 5 AdProcess.c3State).2 = false ∧
    (AdProcess.syncCommon AdProcess.dflts false 5
        AdProcess.c3State).1.lastGood.isSome = true :=
  ⟨by decide, rfl, rfl, rfl⟩

/-- C3, amended: provided the last-good file exists, if no source's mtime is
strictly greater than both other sources' (including any tie), `sync_common`
returns false and leaves the whole state — the three files and the
in-memory document — unchanged. -/
theorem C3_no_strict_winner_noop (d : List (String × AdProcess.JVal)) (a : Bool)
    (t : Nat) (s : AdProcess.CState) (hlg : s.lastGood.isSome = true)
    (hw : AdProcess.pickWinner (AdProcess.mtimeOf s.cloud)
        (AdProcess.mtimeOf s.lastGood) (AdProcess.mtimeOf s.loc) = none) :
    AdProcess.syncCommon d a t s = (s, false) := by
  cases h : s.lastGood with
  | none => rw [h] at hlg; exact absurd hlg (by simp)
  | some fd =>
    rw [h, AdProcess.mtimeOf_some] at hw
    exact AdProcess.syncCommon_noWin d a t s fd h hw

/-- Witness for `C3_no_strict_winner_noop`: a three-way tie at mtime 3 is a
no-op. -/
theorem C3_no_strict_winner_noop_witness :
    AdProcess.c3TieState.lastGood.isSome = true ∧
    AdProcess.pickWinner (AdProcess.mtimeOf AdProcess.c3TieState.cloud)
      (AdProcess.mtimeOf AdProcess.c3TieState.lastGood)
      (AdProcess.mtimeOf AdProcess.c3TieState.loc) = none ∧
    AdProcess.syncCommon AdProcess.dflts false 9 AdProcess.c3TieState
      = (AdProcess.c3TieState, false) :=
  ⟨rfl, by decide,
   C3_no_strict_winner_noop AdProcess.dflts false 9 AdProcess.c3TieState rfl
     (by decide)⟩

/-- C4, counterexample: the local file is the strict winner but does not
parse, yet `sync_common` does not abort with false: it returns true and
rewrites the last-good file (its mtime changes from 2 to the write time 7),
because `LoadConfig` never surfaces a parse failure — it falls back to the
adjacent `.lastgood.json` file or the in-code defaults. -/
theorem C4_counterexample :
    AdProcess.parseFile AdProcess.c4State.loc = none ∧
    AdProcess.pickWinner (AdProcess.mtimeOf AdProcess.c4State.cloud)
      (AdProcess.mtimeOf AdProcess.c4State.lastGood)
      (AdProcess.mtimeOf AdProcess.c4State.loc)
      = some AdProcess.Winner.loc ∧
    (AdProcess.syncCommon AdProcess.dflts false 7 AdProcess.c4State).2 = true ∧
    Option.map AdProcess.FileData.mtime AdProcess.c4State.lastGood = some 2 ∧
    Option.map AdProcess.FileData.mtime
      (AdProcess.syncCommon AdProcess.dflts false 7
        AdProcess.c4State).1.lastGood = some 7 :=
  ⟨rfl, by decide, rfl, rfl, rfl⟩

/-- C4, amended: for every reconciliation pass in which the winning remote
or local source fails to parse as a document, `sync_common` does not abort:
`LoadConfig` substitutes the fallback — the adjacent `.lastgood.json` file
when that parses, else the in-code defaults — and `sync_common` persists
the resulting `(document, source)` pair to the last-good path as a
two-element JSON array and returns true; the in-memory state is not left
untouched either: it is cleared, up to the single spurious key-to-key entry
that `dict.update` merges from a fallback document with exactly two
top-level keys (`memTupleMerge`). -/
theorem C4_parse_failure_not_aborted (d : List (String × AdProcess.JVal))
    (a : Bool) (t : Nat) (s : AdProcess.CState) (w : AdProcess.Winner)
    (hlg : s.lastGood.isSome = true)
    (hwin : w = AdProcess.Winner.loc ∨ w = AdProcess.Winner.cloud)
    (hw : AdProcess.pickWinner (AdProcess.mtimeOf s.cloud)
        (AdProcess.mtimeOf s.lastGood) (AdProcess.mtimeOf s.loc) = some w)
    (hp : AdProcess.parseFile (AdProcess.winnerFileFor w s) = none) :
    (AdProcess.syncCommon d a t s).2 = true ∧
    (∀ kvs, AdProcess.parseFile (AdProcess.altFileFor w s) = some kvs →
      (AdProcess.syncCommon d a t s).1.lastGood
        = some ⟨t, .jsonVal (.jarr [.jobj kvs, .jstr "lastgood"])⟩ ∧
      (AdProcess.syncCommon d a t s).1.mem = AdProcess.memTupleMerge kvs) ∧
    (AdProcess.parseFile (AdProcess.altFileFor w s) = none →
      (AdProcess.syncCommon d a t s).1.lastGood
        = some ⟨t, .jsonVal (.jarr [.jobj d, .jstr "defaults"])⟩ ∧
      (AdProcess.syncCommon d a t s).1.mem = AdProcess.memTupleMerge d) := by
  cases h : s.lastGood with
  | none => rw [h] at hlg; exact absurd hlg (by simp)
  | some fd =>
    rw [h, AdProcess.mtimeOf_some] at hw
    rcases hwin with hwl | hwc
    · subst hwl
      have hp' : AdProcess.parseFile s.loc = none := hp
      rw [AdProcess.syncCommon_winLoc d a t s fd h hw]
      refine ⟨rfl, ?_, ?_⟩
      · intro kvs halt
        have halt' : AdProcess.parseFile s.lgAltLoc = some kvs := halt
        have hld : AdProcess.loadConfig s.loc s.lgAltLoc d
            = (.jobj kvs, "lastgood") := by
          unfold AdProcess.loadConfig
          rw [hp', halt']
        rw [hld]
        exact ⟨rfl, rfl⟩
      · intro halt
        have halt' : AdProcess.parseFile s.lgAltLoc = none := halt
        have hld : AdProcess.loadConfig s.loc s.lgAltLoc d
            = (.jobj d, "defaults") := by
          unfold AdProcess.loadConfig
          rw [hp', halt']
        rw [hld]
        exact ⟨rfl, rfl⟩
    · subst hwc
      have hp' : AdProcess.parseFile s.cloud = none := hp
      rw [AdProcess.syncCommon_winCloud d a t s fd h hw]
      refine ⟨rfl, ?_, ?_⟩
      · intro kvs halt
        have halt' : AdProcess.parseFile s.lgAltTmp = some kvs := halt
        have hld : AdProcess.loadConfig s.cloud s.lgAltTmp d
            = (.jobj kvs, "lastgood") := by
          unfold AdProcess.loadConfig
          rw [hp', halt']
        rw [hld]
        exact ⟨rfl, rfl⟩
      · intro halt
        have halt' : AdProcess.parseFile s.lgAltTmp = none := halt
        have hld : AdProcess.loadConfig s.cloud s.lgAltTmp d
            = (.jobj d, "defaults") := by
          unfold AdProcess.loadConfig
          rw [hp', halt']
        rw [hld]
        exact ⟨rfl, rfl⟩

/-- Witness for `C4_parse_failure_not_aborted`, exercising both fallback
arms: the unparseable local winner of `c4AltState` (whose adjacent
`.lastgood.json` parses) yields true and persists the lastgood-tuple, and
the same winner in `c4State` (no fallback file) yields true and persists
the defaults-tuple. -/
theorem C4_parse_failure_not_aborted_witness :
    (AdProcess.parseFile
      (AdProcess.altFileFor .loc AdProcess.c4AltState)).isSome = true ∧
    ((AdProcess.syncCommon AdProcess.dflts false 7 AdProcess.c4AltState).2
        = true ∧
     (AdProcess.syncCommon AdProcess.dflts false 7
        AdProcess.c4AltState).1.lastGood
        = some ⟨7, .jsonVal (.jarr [.jobj AdProcess.prevDoc,
                                    .jstr "lastgood"])⟩) ∧
    ((AdProcess.syncCommon AdProcess.dflts false 7 AdProcess.c4State).2
        = true ∧
     (AdProcess.syncCommon AdProcess.dflts false 7 AdProcess.c4State).1.lastGood
        = some ⟨7, .jsonVal (.jarr [.jobj AdProcess.dflts,
                                    .jstr "defaults"])⟩) :=
  ⟨rfl,
   ⟨(C4_parse_failure_not_aborted AdProcess.dflts false 7 AdProcess.c4AltState
       .loc rfl (Or.inl rfl) (by decide) rfl).1,
    ((C4_parse_failure_not_aborted AdProcess.dflts false 7 AdProcess.c4AltState
       .loc rfl (Or.inl rfl) (by decide) rfl).2.1 AdProcess.prevDoc rfl).1⟩,
   ⟨(C4_parse_failure_not_aborted AdProcess.dflts false 7 AdProcess.c4State
       .loc rfl (Or.inl rfl) (by decide) rfl).1,
    ((C4_parse_failure_not_aborted AdProcess.dflts false 7 AdProcess.c4State
       .loc rfl (Or.inl rfl) (by decide) rfl).2.2 rfl).1⟩⟩

/-- C5, code evaluated at the failing input: in Scenario D (no cloud, local
or last-good file), called as `SyncConfigs` calls it for `config.json` —
where the `defaults` argument is the very dict object `cfg.CONFIG` that
`_persist_last_good_and_apply` mutates — `sync_common` seeds the last-good
file with the defaults and returns false as claimed, but the in-memory
state ends EMPTY rather than equal to the defaults: `cur.clear()` empties
the shared object before `cur.update(new)` reads from it. -/
theorem C5_seed_wipes_aliased_memory :
    (AdProcess.syncCommon AdProcess.dflts true 5 AdProcess.c5State).2 = false ∧
    (AdProcess.syncCommon AdProcess.dflts true 5 AdProcess.c5State).1.lastGood =
      some ⟨5, .jsonVal (.jobj AdProcess.dflts)⟩ ∧
    (AdProcess.syncCommon AdProcess.dflts true 5
        AdProcess.c5State).1.mem.length = 0 ∧
    AdProcess.dflts.length = 1 :=
  ⟨rfl, rfl, rfl, rfl⟩

/-- C7, counterexample: a cloud file carrying a future mtime (1000) defeats
idempotence even though nothing changes any of the three files between the
calls: the first call (write time 50) persists the cloud winner to
last-good, but the second call (write time 60) still sees the cloud file as
the strict winner — its mtime exceeds the wall-clock time stamped on
last-good — and returns true again, not false. -/
theorem C7_counterexample :
    (AdProcess.syncCommon AdProcess.dflts false 50 AdProcess.c7SkewState).2
      = true ∧
    (AdProcess.syncCommon AdProcess.dflts false 60
      (AdProcess.syncCommon AdProcess.dflts false 50
        AdProcess.c7SkewState).1).2 = true :=
  ⟨rfl, rfl⟩

/-- C7, amended: calling `sync_common` twice in succession, with no changes
to the cloud or local files in between and provided no source carries a
modification time in the future of the first call's last-good write time
`t` (i.e. `t` exceeds both the cloud and the local mtime), yields false on
the second call: whatever the first call did (seed, no-op, or persist a
winner), afterwards last-good exists and is at least as new as both other
sources, so the second pass selects last-good or no winner. -/
theorem C7_second_call_returns_false (d : List (String × AdProcess.JVal))
    (a : Bool) (t t2 : Nat) (s : AdProcess.CState)
    (hc : AdProcess.mtimeOf s.cloud < (t : Int))
    (hl : AdProcess.mtimeOf s.loc < (t : Int)) :
    (AdProcess.syncCommon d a t2 (AdProcess.syncCommon d a t s).1).2 = false := by
  cases hsg : s.lastGood with
  | none =>
    have h1 : (AdProcess.syncCommon d a t s).1
        = AdProcess.persistLastGoodAndApply s (.pdict d) a t := by
      rw [AdProcess.syncCommon_seed d a t s hsg]
    rw [h1]
    exact AdProcess.syncCommon_false_of_lastGood_newest d a t2 _ _ rfl hc hl
  | some fd =>
    rcases hw : AdProcess.pickWinner (AdProcess.mtimeOf s.cloud)
        (fd.mtime : Int) (AdProcess.mtimeOf s.loc) with _ | w
    · have h1 : (AdProcess.syncCommon d a t s).1 = s := by
        rw [AdProcess.syncCommon_noWin d a t s fd hsg hw]
      rw [h1, AdProcess.syncCommon_noWin d a t2 s fd hsg hw]
    · cases w with
      | lastGood =>
        have h1 : (AdProcess.syncCommon d a t s).1 = s := by
          rw [AdProcess.syncCommon_winLastGood d a t s fd hsg hw]
        rw [h1, AdProcess.syncCommon_winLastGood d a t2 s fd hsg hw]
      | cloud =>
        have h1 : (AdProcess.syncCommon d a t s).1
            = AdProcess.persistLastGoodAndApply s
                (.ptuple (AdProcess.loadConfig s.cloud s.lgAltTmp d).1
                         (AdProcess.loadConfig s.cloud s.lgAltTmp d).2) a t := by
          rw [AdProcess.syncCommon_winCloud d a t s fd hsg hw]
        rw [h1]
        exact AdProcess.syncCommon_false_of_lastGood_newest d a t2 _ _ rfl hc hl
      | loc =>
        have h1 : (AdProcess.syncCommon d a t s).1
            = AdProcess.persistLastGoodAndApply s
                (.ptuple (AdProcess.loadConfig s.loc s.lgAltLoc d).1
                         (AdProcess.loadConfig s.loc s.lgAltLoc d).2) a t := by
          rw [AdProcess.syncCommon_winLoc d a t s fd hsg hw]
        rw [h1]
        exact AdProcess.syncCommon_false_of_lastGood_newest d a t2 _ _ rfl hc hl

/-- Witness for `C7_second_call_returns_false`: cloud at mtime 3, local
missing, last-good at mtime 1, first write at time 10 — the second call
returns false. -/
theorem C7_second_call_returns_false_witness :
    AdProcess.mtimeOf AdProcess.c7State.cloud < (10 : Int) ∧
    AdProcess.mtimeOf AdProcess.c7State.loc < (10 : Int) ∧
    (AdProcess.syncCommon AdProcess.dflts false 11
      (AdProcess.syncCommon AdProcess.dflts false 10 AdProcess.c7State).1).2
      = false :=
  ⟨by decide, by decide,
   C7_second_call_returns_false AdProcess.dflts false 10 11 AdProcess.c7State
     (by decide) (by decide)⟩

/-- Witness for `C6_stage_cloud_when_stale`: remote file size 10 mtime 7,
local file size 10 mtime 2 (remote newer by 5s) is staged from the cloud. -/
theorem C6_stage_cloud_when_stale_witness :
    ((⟨10, 2⟩ : AdProcess.FStat).size ≠ (⟨10, 7⟩ : AdProcess.FStat).size
       ∨ (⟨10, 7⟩ : AdProcess.FStat).mtime > (⟨10, 2⟩ : AdProcess.FStat).mtime + 1) ∧
    AdProcess.stageOne ⟨10, 7⟩ (some ⟨10, 2⟩)
      = (AdProcess.StageChoice.fromCloud, true) :=
  ⟨Or.inr (by decide),
   C6_stage_cloud_when_stale ⟨10, 7⟩ ⟨10, 2⟩ (Or.inr (by decide)) (by decide)⟩

namespace AdProcess

/-- The prior content of the destination file in the C8 scenario. -/
def c8Prior : Raw := .jsonVal (.jobj prevDoc)

/-- Fault environment where only the dump/flush/fsync step raises. -/
def c8DumpFault : WFaults :=
  { createRaises := false, dumpRaises := true, replaceRaises := false }

/-- Fault environment where `dst_dir` is missing and its `mkdir` raises;
every other operation behaves. -/
def c9MkdirFault : DirFaults :=
  { srcExists := true, dstParentExists := true, dstExists := false,
    dstIsDir := false, oldExists := true, oldIsDir := true,
    mkdirDstRaises := true, mkdirOldRaises := false, mkdirRamRaises := false,
    copyStageRaises := false, changeDetected := true, mkdirSdRaises := false,
    copySdRaises := false, rename1Raises := false, rename2Raises := false }

/-- Fault environment where only the first dark-window rename raises. -/
def c9DarkFault : DirFaults :=
  { srcExists := true, dstParentExists := true, dstExists := true,
    dstIsDir := true, oldExists := true, oldIsDir := true,
    mkdirDstRaises := false, mkdirOldRaises := false, mkdirRamRaises := false,
    copyStageRaises := false, changeDetected := true, mkdirSdRaises := false,
    copySdRaises := false, rename1Raises := true, rename2Raises := false }

end AdProcess

/-- C8, code evaluated at the failing input: when the serialization/flush
step of `_write_json_atomic` raises (simulated disk-full) the destination
document is unchanged — but the temporary file REMAINS on disk, because
`tmp` is bound only after the fsync, so the `finally` cleanup raises
NameError, which `contextlib.suppress(Exception)` swallows. The claim's
"no temporary-file artifact remains" fails. -/
theorem C8_dump_failure_leaks_tmpfile :
    AdProcess.writeJsonAtomic AdProcess.c8DumpFault (.pdict AdProcess.docA)
      { dest := some AdProcess.c8Prior, tmpOnDisk := false }
      = ({ dest := some AdProcess.c8Prior, tmpOnDisk := true }, false) := rfl

/-- C9, counterexample: with the live directory missing and its `mkdir`
raising (e.g. a permissions error), the exception escapes `SyncDir` —
`dst_dir.mkdir()` is outside every `try` block, and `SyncFiles` calls
`SyncDir` outside any `try` as well — so not every public operation
returns a status instead of raising. -/
theorem C9_counterexample :
    AdProcess.syncDirFlow AdProcess.c9MkdirFault = Except.error () := rfl

/-- C9, amended: `sync_common` never raises past its boundary — its body is
wrapped in a catch-all that converts any exception into a false return —
and `SyncDir` catches failures of the two dark-window renames, returning
false; but `SyncDir` (and hence `SyncFiles`) may propagate exceptions from
its unguarded setup and staging filesystem operations. -/
theorem C9_sync_common_never_raises :
    (∀ f : AdProcess.CFaults,
      AdProcess.exceptIsOk (AdProcess.syncCommonFlow f) = true) ∧
    (∀ g : AdProcess.DirFaults, AdProcess.darkOnly g →
      (g.rename1Raises || g.rename2Raises) = true →
      AdProcess.syncDirFlow g = Except.ok false) := by
  constructor
  · intro f
    cases h : AdProcess.syncCommonBody f <;>
      simp [AdProcess.syncCommonFlow, h, AdProcess.exceptIsOk]
  · intro g hd hr
    obtain ⟨h1, h2, h3, h4, h5, h6, h7, h8, h9, h10, h11⟩ := hd
    simp [AdProcess.syncDirFlow, h1, h2, h3, h4, h5, h6, h7, h8, h9, h10,
      h11, hr]

/-- Witness for `C9_sync_common_never_raises`: a concrete `sync_common`
environment returns normally, and a `SyncDir` run where only the first
dark-window rename fails returns false without raising. -/
theorem C9_sync_common_never_raises_witness :
    AdProcess.exceptIsOk (AdProcess.syncCommonFlow
      { unexpectedRaises := true, mkdirParentRaises := false,
        seedNeeded := false, copyCloudRaises := false, persistOk := true,
        winner := some .cloud }) = true ∧
    AdProcess.darkOnly AdProcess.c9DarkFault ∧
    AdProcess.syncDirFlow AdProcess.c9DarkFault = Except.ok false :=
  ⟨(C9_sync_common_never_raises.1
      { unexpectedRaises := true, mkdirParentRaises := false,
        seedNeeded := false, copyCloudRaises := false, persistOk := true,
        winner := some .cloud }),
   ⟨rfl, rfl, rfl, rfl, rfl, rfl, rfl, rfl, rfl, rfl, rfl⟩,
   C9_sync_common_never_raises.2 AdProcess.c9DarkFault
     ⟨rfl, rfl, rfl, rfl, rfl, rfl, rfl, rfl, rfl, rfl, rfl⟩ (by decide)⟩

/-- C10: a single invocation of the `SyncFiles` entry loop promotes at most
one entry, and it stops early (leaving a non-empty unexamined suffix) only
when it has promoted exactly one entry. -/
theorem C10_at_most_one_promotion (es : List AdProcess.MEntry) :
    (AdProcess.syncFilesRun es).1 ≤ 1 ∧
    ((AdProcess.syncFilesRun es).2 ≠ [] → (AdProcess.syncFilesRun es).1 = 1) := by
  induction es with
  | nil => simp [AdProcess.syncFilesRun]
  | cons e rest ih =>
    by_cases hp : AdProcess.promotes e = true
    · simp [AdProcess.syncFilesRun, hp]
    · simp only [AdProcess.syncFilesRun, if_neg hp]
      exact ih

/-- Witness for `C10_at_most_one_promotion`: a playlist with a skipped
entry, a failed swap, a successful video replacement, and one more entry
behind it promotes exactly one entry and leaves the last entry unexamined. -/
theorem C10_at_most_one_promotion_witness :
    (AdProcess.syncFilesRun
      [.skipEntry, .dirEntry false, .vidEntry true true true,
       .dirEntry true]).1 ≤ 1 ∧
    (AdProcess.syncFilesRun
      [.skipEntry, .dirEntry false, .vidEntry true true true,
       .dirEntry true]).1 = 1 :=
  ⟨(C10_at_most_one_promotion
      [.skipEntry, .dirEntry false, .vidEntry true true true,
       .dirEntry true]).1,
   (C10_at_most_one_promotion
      [.skipEntry, .dirEntry false, .vidEntry true true true,
       .dirEntry true]).2 (by decide)⟩
